import Mathlib

/-!
Shallow embedding of the investment projection engine of
`src/investment_calculator.py`, together with theorems settling the
frozen claims about it.

Numbers are modelled as real numbers.  Python's `/` raises
`ZeroDivisionError` on a zero divisor, so divisions whose divisor can be
zero on the claimed input domain are embedded through an `Option`-valued
division (`pydiv`); everywhere else real-number division is used
directly.  The `pandas` data frames returned by the simulators are
modelled as lists of rows, one structure field per column; the
month-by-month `for` loops writing the numpy arrays become structural
recursions with exactly the same one-step dependency.
-/

namespace FinSmart

/-- Row of the data frame returned by `calculate_sip_returns`
(columns `Month`, `Total_Investment`, `Investment_Value`). -/
@[ext]
structure SipRow where
  Month : ℕ
  Total_Investment : ℝ
  Investment_Value : ℝ

/-- Row of the data frame returned by `calculate_lumpsum_returns`
(columns `Year`, `Investment_Value`). -/
@[ext]
structure LumpsumRow where
  Year : ℕ
  Investment_Value : ℝ

/-- Row of the data frame returned by `calculate_step_up_sip`
(columns `Month`, `Monthly_SIP`, `Total_Investment`, `Investment_Value`). -/
@[ext]
structure StepUpRow where
  Month : ℕ
  Monthly_SIP : ℝ
  Total_Investment : ℝ
  Investment_Value : ℝ

/-- The rate conversion performed at the top of `calculate_sip_returns`,
`calculate_goal_based_sip` and `calculate_step_up_sip`:
`monthly_rate = (1 + annual_return_rate/100) ** (1/12) - 1`. -/
noncomputable def monthly_rate (annual_return_rate : ℝ) : ℝ :=
  (1 + annual_return_rate / 100) ^ ((1 : ℝ) / 12) - 1

/-- The `total_investment` array filled by the loop of
`calculate_sip_returns`: cell `0` holds `monthly_investment`, cell
`month` holds the previous cell plus `monthly_investment`. -/
noncomputable def sip_total_investment (monthly_investment : ℝ) : ℕ → ℝ
  | 0 => monthly_investment
  | month + 1 => sip_total_investment monthly_investment month + monthly_investment

/-- The `investment_value` array filled by the loop of
`calculate_sip_returns`, with the already-converted monthly rate
`mrate` passed explicitly: cell `0` holds `monthly_investment`, cell
`month` holds `previous * (1 + mrate) + monthly_investment`. -/
noncomputable def sip_investment_value (monthly_investment mrate : ℝ) : ℕ → ℝ
  | 0 => monthly_investment
  | month + 1 =>
      sip_investment_value monthly_investment mrate month * (1 + mrate) + monthly_investment

/-- `calculate_sip_returns(monthly_investment, annual_return_rate, time_years)`:
a data frame with `Month` running over `1 .. time_years*12` and the two
arrays computed by the loop. -/
noncomputable def calculate_sip_returns
    (monthly_investment annual_return_rate : ℝ) (time_years : ℕ) : List SipRow :=
  (List.range (time_years * 12)).map fun month =>
    { Month := month + 1
      Total_Investment := sip_total_investment monthly_investment month
      Investment_Value :=
        sip_investment_value monthly_investment (monthly_rate annual_return_rate) month }

/-- `calculate_lumpsum_returns(investment_amount, annual_return_rate, time_years)`:
one row per year `0 .. time_years`, with
`investment_value[i] = investment_amount * ((1 + annual_return_rate/100) ** year)`. -/
noncomputable def calculate_lumpsum_returns
    (investment_amount annual_return_rate : ℝ) (time_years : ℕ) : List LumpsumRow :=
  (List.range (time_years + 1)).map fun year =>
    { Year := year
      Investment_Value := investment_amount * (1 + annual_return_rate / 100) ^ year }

/-- Python float division: `a / b` raises `ZeroDivisionError` when `b = 0`,
modelled as `none`. -/
noncomputable def pydiv (a b : ℝ) : Option ℝ :=
  if b = 0 then none else some (a / b)

/-- `calculate_goal_based_sip(target_amount, annual_return_rate, time_years)`:
`monthly_sip = target_amount / (((1 + monthly_rate) ** total_months - 1) / monthly_rate) / (1 + monthly_rate)`,
with each of the three Python divisions embedded fallibly. -/
noncomputable def calculate_goal_based_sip
    (target_amount annual_return_rate : ℝ) (time_years : ℕ) : Option ℝ :=
  let mr := monthly_rate annual_return_rate
  let total_months := time_years * 12
  (pydiv ((1 + mr) ^ total_months - 1) mr).bind fun d =>
    (pydiv target_amount d).bind fun q =>
      pydiv q (1 + mr)

/-- The `monthly_investment` array filled by the loop of
`calculate_step_up_sip`: at `month % 12 == 0 and month > 0` the SIP is
re-based to `initial * ((1 + annual_step_up_rate/100) ** year)` with
`year = month // 12`; at `month == 0` it is `initial`; otherwise it is
copied from the previous month. -/
noncomputable def step_up_monthly_investment (initial annual_step_up_rate : ℝ) : ℕ → ℝ
  | 0 => initial
  | month + 1 =>
      if (month + 1) % 12 = 0 then
        initial * (1 + annual_step_up_rate / 100) ^ ((month + 1) / 12)
      else
        step_up_monthly_investment initial annual_step_up_rate month

/-- The `total_investment` array filled by the loop of
`calculate_step_up_sip`. -/
noncomputable def step_up_total_investment (initial annual_step_up_rate : ℝ) : ℕ → ℝ
  | 0 => step_up_monthly_investment initial annual_step_up_rate 0
  | month + 1 =>
      step_up_total_investment initial annual_step_up_rate month +
        step_up_monthly_investment initial annual_step_up_rate (month + 1)

/-- The `investment_value` array filled by the loop of
`calculate_step_up_sip`, with the converted monthly rate `mrate` passed
explicitly. -/
noncomputable def step_up_investment_value (initial annual_step_up_rate mrate : ℝ) : ℕ → ℝ
  | 0 => step_up_monthly_investment initial annual_step_up_rate 0
  | month + 1 =>
      step_up_investment_value initial annual_step_up_rate mrate month * (1 + mrate) +
        step_up_monthly_investment initial annual_step_up_rate (month + 1)

/-- `calculate_step_up_sip(initial_monthly_investment, annual_step_up_rate, annual_return_rate, time_years)`:
a data frame with `Month` running over `1 .. time_years*12` and the
three arrays computed by the loop. -/
noncomputable def calculate_step_up_sip
    (initial_monthly_investment annual_step_up_rate annual_return_rate : ℝ)
    (time_years : ℕ) : List StepUpRow :=
  (List.range (time_years * 12)).map fun month =>
    { Month := month + 1
      Monthly_SIP := step_up_monthly_investment initial_monthly_investment annual_step_up_rate month
      Total_Investment :=
        step_up_total_investment initial_monthly_investment annual_step_up_rate month
      Investment_Value :=
        step_up_investment_value initial_monthly_investment annual_step_up_rate
          (monthly_rate annual_return_rate) month }

/-- `calculate_retirement_corpus(monthly_expenses, life_expectancy, retirement_age, inflation_rate)`:
sets `current_age = retirement_age`, inflates the monthly expenses over
`retirement_age - current_age` years, annualises, and multiplies by 25. -/
noncomputable def calculate_retirement_corpus
    (monthly_expenses life_expectancy retirement_age inflation_rate : ℝ) : ℝ :=
  let current_age := retirement_age
  let _retirement_duration := life_expectancy - retirement_age
  let monthly_expenses_at_retirement :=
    monthly_expenses * (1 + inflation_rate / 100) ^ (retirement_age - current_age)
  let annual_expenses_at_retirement := monthly_expenses_at_retirement * 12
  annual_expenses_at_retirement * 25

/-- The real-return conversion used by `show_investment_calculator`:
`real_return_rate = (1 + annual_return_rate/100) / (1 + inflation_rate/100) - 1`. -/
noncomputable def real_return_rate (annual_return_rate inflation_rate : ℝ) : ℝ :=
  (1 + annual_return_rate / 100) / (1 + inflation_rate / 100) - 1

/-- `df['Investment_Value'].iloc[-1]` on a SIP data frame: the
`Investment_Value` field of the last row (`0` on an empty frame, which
never occurs for valid durations). -/
noncomputable def final_investment_value (result : List SipRow) : ℝ :=
  ((result.getLast?).map SipRow.Investment_Value).getD 0

/-! ### Shared helper lemmas -/

/-- Indexing a mapped range: row `i` of any of the simulated data frames
is the row function applied to the 0-based month `i`. -/
theorem get_range_map {α : Type*} (f : ℕ → α) (N i : ℕ)
    (h : i < ((List.range N).map f).length) :
    ((List.range N).map f).get ⟨i, h⟩ = f i := by
  simp

/-- At annual rate 0 the compound conversion yields a monthly rate of
exactly 0. -/
theorem monthly_rate_zero : monthly_rate 0 = 0 := by
  have h : (1 : ℝ) + 0 / 100 = 1 := by norm_num
  rw [monthly_rate, h, Real.one_rpow]
  ring

/-- At a positive annual rate the converted monthly rate is positive. -/
theorem monthly_rate_pos {r : ℝ} (hr : 0 < r) : 0 < monthly_rate r := by
  have h1 : (1 : ℝ) < 1 + r / 100 := by linarith
  have h2 : (1 : ℝ) < (1 + r / 100) ^ ((1 : ℝ) / 12) :=
    Real.one_lt_rpow h1 (by norm_num)
  simpa [monthly_rate] using sub_pos.mpr h2

/-- Closed form of the cumulative-contribution array. -/
theorem sip_total_investment_eq (c : ℝ) (m : ℕ) :
    sip_total_investment c m = (m + 1 : ℕ) * c := by
  induction m with
  | zero => simp [sip_total_investment]
  | succ k ih =>
      rw [sip_total_investment, ih]
      push_cast
      ring

/-- Geometric closed form of the value array, valid away from a zero
monthly rate. -/
theorem sip_investment_value_closed (c mr : ℝ) (hmr : mr ≠ 0) (m : ℕ) :
    sip_investment_value c mr m = c * ((1 + mr) ^ (m + 1) - 1) / mr := by
  induction m with
  | zero =>
      rw [sip_investment_value]
      field_simp
  | succ k ih =>
      rw [sip_investment_value, ih]
      field_simp
      ring

/-- With a zero monthly rate the value array coincides with the
cumulative-contribution array. -/
theorem sip_investment_value_zero_rate (c : ℝ) (m : ℕ) :
    sip_investment_value c 0 m = sip_total_investment c m := by
  induction m with
  | zero => rfl
  | succ k ih =>
      rw [sip_investment_value, sip_total_investment, ih]
      ring

/-- Closed form of the step-up SIP schedule: the contribution active in
0-based month `m` is the initial contribution escalated once per
completed year. -/
theorem step_up_monthly_investment_eq (c0 s : ℝ) (m : ℕ) :
    step_up_monthly_investment c0 s m = c0 * (1 + s / 100) ^ (m / 12) := by
  induction m with
  | zero => simp [step_up_monthly_investment]
  | succ k ih =>
      rw [step_up_monthly_investment]
      by_cases h : (k + 1) % 12 = 0
      · simp [h]
      · have hdvd : ¬ (12 ∣ k + 1) := by
          rw [Nat.dvd_iff_mod_eq_zero]
          exact h
        have hdiv : (k + 1) / 12 = k / 12 := by
          rw [Nat.succ_div, if_neg hdvd]
          omega
        rw [if_neg h, ih, hdiv]

/-- Row `i` of the SIP data frame, written out. -/
theorem calculate_sip_returns_get (c r : ℝ) (y i : ℕ)
    (hi : i < (calculate_sip_returns c r y).length) :
    (calculate_sip_returns c r y).get ⟨i, hi⟩ =
      { Month := i + 1
        Total_Investment := sip_total_investment c i
        Investment_Value := sip_investment_value c (monthly_rate r) i } :=
  get_range_map _ _ _ _

/-- Row `i` of the lump-sum data frame, written out. -/
theorem calculate_lumpsum_returns_get (p r : ℝ) (y i : ℕ)
    (hi : i < (calculate_lumpsum_returns p r y).length) :
    (calculate_lumpsum_returns p r y).get ⟨i, hi⟩ =
      { Year := i
        Investment_Value := p * (1 + r / 100) ^ i } :=
  get_range_map _ _ _ _

/-- Row `i` of the step-up SIP data frame, written out. -/
theorem calculate_step_up_sip_get (c0 s r : ℝ) (y i : ℕ)
    (hi : i < (calculate_step_up_sip c0 s r y).length) :
    (calculate_step_up_sip c0 s r y).get ⟨i, hi⟩ =
      { Month := i + 1
        Monthly_SIP := step_up_monthly_investment c0 s i
        Total_Investment := step_up_total_investment c0 s i
        Investment_Value := step_up_investment_value c0 s (monthly_rate r) i } :=
  get_range_map _ _ _ _

/-! ### Claim theorems -/

/-- C10: `calculate_retirement_corpus` returns exactly `300 * monthly_expenses`
for all inputs; because `current_age` is set to `retirement_age`, the
inflation exponent is zero, so the `life_expectancy`, `retirement_age`
and `inflation_rate` arguments have no effect on the result. -/
theorem retirement_corpus_const
    (monthly_expenses life_expectancy retirement_age inflation_rate : ℝ) :
    calculate_retirement_corpus monthly_expenses life_expectancy retirement_age inflation_rate
      = 300 * monthly_expenses := by
  simp only [calculate_retirement_corpus, sub_self, Real.rpow_zero]
  ring

/-- C9: the real annual return is `(1 + r/100) / (1 + i/100) - 1`; at a
nominal rate of 12 and inflation of 6 it equals `3/53`, which is within
`0.0001` of `0.0566` (5.66%). -/
theorem real_return_rate_correct :
    (∀ r i : ℝ, real_return_rate r i = (1 + r / 100) / (1 + i / 100) - 1) ∧
    real_return_rate 12 6 = 3 / 53 ∧
    |real_return_rate 12 6 - 0.0566| < 0.0001 := by
  refine ⟨fun r i => rfl, ?_, ?_⟩
  · rw [real_return_rate]; norm_num
  · rw [real_return_rate, abs_sub_lt_iff]
    constructor <;> norm_num

/-- C2: the claim that `calculate_goal_based_sip` special-cases a zero
monthly rate is refuted by the code: at annual rate 0 the monthly rate
is exactly 0 and the division `((1+monthly_rate)^n - 1) / monthly_rate`
raises `ZeroDivisionError` (modelled as `none`); the call never returns
`target / n`. -/
theorem goal_based_sip_zero_rate_raises :
    calculate_goal_based_sip 1200 0 1 = none := by
  simp [calculate_goal_based_sip, pydiv, monthly_rate_zero]

/-- C8: with annual rate 0 the monthly rate is exactly 0 and every row of
`calculate_sip_returns` has its grown value equal to its cumulative
contribution. -/
theorem sip_zero_rate_linearity (c : ℝ) (y : ℕ) (hc : 0 < c) (hy : 1 ≤ y) :
    ∀ (i : ℕ) (hi : i < (calculate_sip_returns c 0 y).length),
      ((calculate_sip_returns c 0 y).get ⟨i, hi⟩).Investment_Value
        = ((calculate_sip_returns c 0 y).get ⟨i, hi⟩).Total_Investment := by
  intro i hi
  rw [calculate_sip_returns_get]
  simp only [monthly_rate_zero, sip_investment_value_zero_rate]

/-- Witness for C8 at `c = 1`, `y = 1`. -/
theorem sip_zero_rate_linearity_witness :
    (0 : ℝ) < 1 ∧ 1 ≤ 1 ∧
    ∀ (i : ℕ) (hi : i < (calculate_sip_returns 1 0 1).length),
      ((calculate_sip_returns 1 0 1).get ⟨i, hi⟩).Investment_Value
        = ((calculate_sip_returns 1 0 1).get ⟨i, hi⟩).Total_Investment :=
  ⟨by norm_num, le_rfl, sip_zero_rate_linearity 1 1 (by norm_num) le_rfl⟩

/-- C5: `calculate_lumpsum_returns` produces `y + 1` rows, row `k`
holding year `k` and value `p * (1 + r/100)^k`; consequently with
`r = 0` every row's value equals the principal. -/
theorem lumpsum_returns_correct (p r : ℝ) (y : ℕ)
    (hp : 0 < p) (hr : 0 ≤ r) (hy : 1 ≤ y) :
    (calculate_lumpsum_returns p r y).length = y + 1 ∧
    (∀ (k : ℕ) (hk : k < (calculate_lumpsum_returns p r y).length),
      ((calculate_lumpsum_returns p r y).get ⟨k, hk⟩).Year = k ∧
      ((calculate_lumpsum_returns p r y).get ⟨k, hk⟩).Investment_Value
        = p * (1 + r / 100) ^ k) ∧
    (r = 0 →
      ∀ (k : ℕ) (hk : k < (calculate_lumpsum_returns p r y).length),
        ((calculate_lumpsum_returns p r y).get ⟨k, hk⟩).Investment_Value = p) := by
  refine ⟨by simp [calculate_lumpsum_returns], ?_, ?_⟩
  · intro k hk
    rw [calculate_lumpsum_returns_get]
    exact ⟨rfl, rfl⟩
  · intro hr0 k hk
    subst hr0
    rw [calculate_lumpsum_returns_get]
    norm_num

/-- Witness for C5 at `p = 1`, `r = 0`, `y = 1`. -/
theorem lumpsum_returns_correct_witness :
    (0 : ℝ) < 1 ∧ (0 : ℝ) ≤ 0 ∧ 1 ≤ 1 ∧
    (calculate_lumpsum_returns 1 0 1).length = 1 + 1 :=
  ⟨by norm_num, le_rfl, le_rfl,
    (lumpsum_returns_correct 1 0 1 (by norm_num) le_rfl le_rfl).1⟩

/-- With a zero step-up rate the scheduled contribution never changes. -/
theorem step_up_monthly_investment_zero_step (c0 : ℝ) (m : ℕ) :
    step_up_monthly_investment c0 0 m = c0 := by
  rw [step_up_monthly_investment_eq]
  norm_num

/-- With a zero step-up rate the cumulative contributions of the two
simulators coincide. -/
theorem step_up_total_investment_zero_step (c0 : ℝ) (m : ℕ) :
    step_up_total_investment c0 0 m = sip_total_investment c0 m := by
  induction m with
  | zero => rfl
  | succ k ih =>
      rw [step_up_total_investment, sip_total_investment, ih,
        step_up_monthly_investment_zero_step]

/-- With a zero step-up rate the grown values of the two simulators
coincide. -/
theorem step_up_investment_value_zero_step (c0 mr : ℝ) (m : ℕ) :
    step_up_investment_value c0 0 mr m = sip_investment_value c0 mr m := by
  induction m with
  | zero => rfl
  | succ k ih =>
      rw [step_up_investment_value, sip_investment_value, ih,
        step_up_monthly_investment_zero_step]

/-- The step-up schedule is positive for a positive initial contribution
and a non-negative step-up rate. -/
theorem step_up_monthly_investment_pos {c0 s : ℝ} (hc : 0 < c0) (hs : 0 ≤ s) (m : ℕ) :
    0 < step_up_monthly_investment c0 s m := by
  rw [step_up_monthly_investment_eq]
  have h1 : (0 : ℝ) < 1 + s / 100 := by linarith
  exact mul_pos hc (pow_pos h1 _)

/-- C3: `calculate_sip_returns` produces exactly `12*y` rows; the first
row has cumulative contribution and value both equal to the monthly
contribution, and each later row adds the contribution to the previous
cumulative contribution and applies
`value * (1 + ((1 + r/100)^(1/12) - 1)) + c` to the previous value. -/
theorem sip_returns_correct (c r : ℝ) (y : ℕ) (hc : 0 < c) (hr : 0 ≤ r) (hy : 1 ≤ y) :
    (calculate_sip_returns c r y).length = 12 * y ∧
    (∀ h0 : 0 < (calculate_sip_returns c r y).length,
      ((calculate_sip_returns c r y).get ⟨0, h0⟩).Month = 1 ∧
      ((calculate_sip_returns c r y).get ⟨0, h0⟩).Total_Investment = c ∧
      ((calculate_sip_returns c r y).get ⟨0, h0⟩).Investment_Value = c) ∧
    (∀ (i : ℕ) (hi : i < (calculate_sip_returns c r y).length)
        (hi1 : i + 1 < (calculate_sip_returns c r y).length),
      ((calculate_sip_returns c r y).get ⟨i + 1, hi1⟩).Month
        = ((calculate_sip_returns c r y).get ⟨i, hi⟩).Month + 1 ∧
      ((calculate_sip_returns c r y).get ⟨i + 1, hi1⟩).Total_Investment
        = ((calculate_sip_returns c r y).get ⟨i, hi⟩).Total_Investment + c ∧
      ((calculate_sip_returns c r y).get ⟨i + 1, hi1⟩).Investment_Value
        = ((calculate_sip_returns c r y).get ⟨i, hi⟩).Investment_Value
            * (1 + ((1 + r / 100) ^ ((1 : ℝ) / 12) - 1)) + c) := by
  refine ⟨?_, ?_, ?_⟩
  · simp only [calculate_sip_returns, List.length_map, List.length_range]
    omega
  · intro h0
    rw [calculate_sip_returns_get]
    exact ⟨rfl, rfl, rfl⟩
  · intro i hi hi1
    rw [calculate_sip_returns_get, calculate_sip_returns_get]
    refine ⟨rfl, ?_, ?_⟩
    · simp [sip_total_investment]
    · simp [sip_investment_value, monthly_rate]

/-- Witness for C3 at `c = 1`, `r = 0`, `y = 1`. -/
theorem sip_returns_correct_witness :
    (0 : ℝ) < 1 ∧ (0 : ℝ) ≤ 0 ∧ 1 ≤ 1 ∧
    (calculate_sip_returns 1 0 1).length = 12 * 1 :=
  ⟨by norm_num, le_rfl, le_rfl,
    (sip_returns_correct 1 0 1 (by norm_num) le_rfl le_rfl).1⟩

/-- C4: in `calculate_step_up_sip` the contribution active in 1-based
period `i+1` is `c0 * (1 + s/100) ^ ((i + 1 - 1) / 12)`; periods 1–12
use the unescalated `c0`; and the cumulative contribution and value
follow the ordinary-annuity recurrence with the period's active
contribution substituted for the constant contribution. -/
theorem step_up_sip_schedule (c0 s r : ℝ) (y : ℕ)
    (hc : 0 < c0) (hs : 0 ≤ s) (hr : 0 ≤ r) (hy : 1 ≤ y) :
    (calculate_step_up_sip c0 s r y).length = 12 * y ∧
    (∀ (i : ℕ) (hi : i < (calculate_step_up_sip c0 s r y).length),
      ((calculate_step_up_sip c0 s r y).get ⟨i, hi⟩).Monthly_SIP
        = c0 * (1 + s / 100) ^ ((i + 1 - 1) / 12)) ∧
    (∀ (i : ℕ) (hi : i < (calculate_step_up_sip c0 s r y).length),
      i + 1 ≤ 12 → ((calculate_step_up_sip c0 s r y).get ⟨i, hi⟩).Monthly_SIP = c0) ∧
    (∀ h0 : 0 < (calculate_step_up_sip c0 s r y).length,
      ((calculate_step_up_sip c0 s r y).get ⟨0, h0⟩).Total_Investment
        = ((calculate_step_up_sip c0 s r y).get ⟨0, h0⟩).Monthly_SIP ∧
      ((calculate_step_up_sip c0 s r y).get ⟨0, h0⟩).Investment_Value
        = ((calculate_step_up_sip c0 s r y).get ⟨0, h0⟩).Monthly_SIP) ∧
    (∀ (i : ℕ) (hi : i < (calculate_step_up_sip c0 s r y).length)
        (hi1 : i + 1 < (calculate_step_up_sip c0 s r y).length),
      ((calculate_step_up_sip c0 s r y).get ⟨i + 1, hi1⟩).Total_Investment
        = ((calculate_step_up_sip c0 s r y).get ⟨i, hi⟩).Total_Investment
          + ((calculate_step_up_sip c0 s r y).get ⟨i + 1, hi1⟩).Monthly_SIP ∧
      ((calculate_step_up_sip c0 s r y).get ⟨i + 1, hi1⟩).Investment_Value
        = ((calculate_step_up_sip c0 s r y).get ⟨i, hi⟩).Investment_Value
            * (1 + monthly_rate r)
          + ((calculate_step_up_sip c0 s r y).get ⟨i + 1, hi1⟩).Monthly_SIP) := by
  refine ⟨?_, ?_, ?_, ?_, ?_⟩
  · simp only [calculate_step_up_sip, List.length_map, List.length_range]
    omega
  · intro i hi
    rw [calculate_step_up_sip_get]
    simp only [Nat.add_sub_cancel]
    exact step_up_monthly_investment_eq c0 s i
  · intro i hi h12
    rw [calculate_step_up_sip_get]
    simp only
    rw [step_up_monthly_investment_eq, Nat.div_eq_of_lt (by omega), pow_zero, mul_one]
  · intro h0
    rw [calculate_step_up_sip_get]
    exact ⟨rfl, rfl⟩
  · intro i hi hi1
    rw [calculate_step_up_sip_get, calculate_step_up_sip_get]
    constructor
    · simp [step_up_total_investment]
    · simp [step_up_investment_value]

/-- Witness for C4 at `c0 = 1`, `s = 0`, `r = 0`, `y = 1`. -/
theorem step_up_sip_schedule_witness :
    (0 : ℝ) < 1 ∧ (0 : ℝ) ≤ 0 ∧ (0 : ℝ) ≤ 0 ∧ 1 ≤ 1 ∧
    (calculate_step_up_sip 1 0 0 1).length = 12 * 1 :=
  ⟨by norm_num, le_rfl, le_rfl, le_rfl,
    (step_up_sip_schedule 1 0 0 1 (by norm_num) le_rfl le_rfl le_rfl).1⟩

/-- C6: with a zero step-up rate, `calculate_step_up_sip` produces the
same period indices, cumulative contributions and values, row for row,
as `calculate_sip_returns` on the same contribution, rate and
duration. -/
theorem step_up_zero_matches_sip (c0 r : ℝ) (y : ℕ)
    (hc : 0 < c0) (hr : 0 ≤ r) (hy : 1 ≤ y) :
    (calculate_step_up_sip c0 0 r y).map
        (fun row => (row.Month, row.Total_Investment, row.Investment_Value))
      = (calculate_sip_returns c0 r y).map
        (fun row => (row.Month, row.Total_Investment, row.Investment_Value)) := by
  rw [calculate_step_up_sip, calculate_sip_returns, List.map_map, List.map_map]
  apply List.map_congr_left
  intro m _
  simp [Function.comp, step_up_total_investment_zero_step,
    step_up_investment_value_zero_step]

/-- Witness for C6 at `c0 = 1`, `r = 0`, `y = 1`. -/
theorem step_up_zero_matches_sip_witness :
    (0 : ℝ) < 1 ∧ (0 : ℝ) ≤ 0 ∧ 1 ≤ 1 ∧
    (calculate_step_up_sip 1 0 0 1).map
        (fun row => (row.Month, row.Total_Investment, row.Investment_Value))
      = (calculate_sip_returns 1 0 1).map
        (fun row => (row.Month, row.Total_Investment, row.Investment_Value)) :=
  ⟨by norm_num, le_rfl, le_rfl,
    step_up_zero_matches_sip 1 0 1 (by norm_num) le_rfl le_rfl⟩

/-- C7: in both the SIP simulator and the step-up simulator the
cumulative contribution is non-decreasing from each period to the next,
and strictly increasing whenever the incoming period's contribution is
positive (which, for a positive contribution and non-negative step-up,
is always). -/
theorem contributions_monotone (c s r : ℝ) (y : ℕ)
    (hc : 0 < c) (hs : 0 ≤ s) (hr : 0 ≤ r) (hy : 1 ≤ y) :
    (∀ (i : ℕ) (hi : i < (calculate_sip_returns c r y).length)
        (hi1 : i + 1 < (calculate_sip_returns c r y).length),
      ((calculate_sip_returns c r y).get ⟨i, hi⟩).Total_Investment
        ≤ ((calculate_sip_returns c r y).get ⟨i + 1, hi1⟩).Total_Investment ∧
      ((calculate_sip_returns c r y).get ⟨i, hi⟩).Total_Investment
        < ((calculate_sip_returns c r y).get ⟨i + 1, hi1⟩).Total_Investment) ∧
    (∀ (i : ℕ) (hi : i < (calculate_step_up_sip c s r y).length)
        (hi1 : i + 1 < (calculate_step_up_sip c s r y).length),
      ((calculate_step_up_sip c s r y).get ⟨i, hi⟩).Total_Investment
        ≤ ((calculate_step_up_sip c s r y).get ⟨i + 1, hi1⟩).Total_Investment ∧
      (0 < ((calculate_step_up_sip c s r y).get ⟨i + 1, hi1⟩).Monthly_SIP →
        ((calculate_step_up_sip c s r y).get ⟨i, hi⟩).Total_Investment
          < ((calculate_step_up_sip c s r y).get ⟨i + 1, hi1⟩).Total_Investment)) := by
  constructor
  · intro i hi hi1
    rw [calculate_sip_returns_get, calculate_sip_returns_get]
    simp only [sip_total_investment]
    constructor <;> linarith
  · intro i hi hi1
    rw [calculate_step_up_sip_get, calculate_step_up_sip_get]
    simp only [step_up_total_investment]
    have hpos := step_up_monthly_investment_pos hc hs (i + 1)
    exact ⟨by linarith, fun _ => by linarith⟩

/-- Witness for C7 at `c = 1`, `s = 0`, `r = 0`, `y = 1`. -/
theorem contributions_monotone_witness :
    (0 : ℝ) < 1 ∧ (0 : ℝ) ≤ 0 ∧ (0 : ℝ) ≤ 0 ∧ 1 ≤ 1 ∧
    ∀ (i : ℕ) (hi : i < (calculate_sip_returns 1 0 1).length)
        (hi1 : i + 1 < (calculate_sip_returns 1 0 1).length),
      ((calculate_sip_returns 1 0 1).get ⟨i, hi⟩).Total_Investment
        ≤ ((calculate_sip_returns 1 0 1).get ⟨i + 1, hi1⟩).Total_Investment ∧
      ((calculate_sip_returns 1 0 1).get ⟨i, hi⟩).Total_Investment
        < ((calculate_sip_returns 1 0 1).get ⟨i + 1, hi1⟩).Total_Investment :=
  ⟨by norm_num, le_rfl, le_rfl, le_rfl,
    (contributions_monotone 1 0 0 1 (by norm_num) le_rfl le_rfl le_rfl).1⟩

/-- For a positive annual rate all three divisions of the backsolver
succeed, and the returned contribution is the annuity-due inverse
written in the source. -/
theorem goal_based_sip_eq (T r : ℝ) (y : ℕ) (hr : 0 < r) (hy : 1 ≤ y) :
    calculate_goal_based_sip T r y
      = some (T / (((1 + monthly_rate r) ^ (y * 12) - 1) / monthly_rate r)
              / (1 + monthly_rate r)) := by
  have hmr := monthly_rate_pos hr
  have h1 : (1 : ℝ) < 1 + monthly_rate r := by linarith
  have hn : y * 12 ≠ 0 := by omega
  have hpow : (1 : ℝ) < (1 + monthly_rate r) ^ (y * 12) := one_lt_pow₀ h1 hn
  have hd : ((1 + monthly_rate r) ^ (y * 12) - 1) / monthly_rate r ≠ 0 :=
    div_ne_zero (by linarith) hmr.ne'
  have h1ne : (1 : ℝ) + monthly_rate r ≠ 0 := by linarith
  simp [calculate_goal_based_sip, pydiv, hmr.ne', hd, h1ne]

/-- The `iloc[-1]` value of the SIP data frame is the value-array cell
of the last month. -/
theorem final_investment_value_eq (c r : ℝ) (y : ℕ) (hy : 1 ≤ y) :
    final_investment_value (calculate_sip_returns c r y)
      = sip_investment_value c (monthly_rate r) (y * 12 - 1) := by
  obtain ⟨m, hm⟩ : ∃ m, y * 12 = m + 1 := ⟨y * 12 - 1, by omega⟩
  have hm1 : y * 12 - 1 = m := by omega
  rw [final_investment_value, calculate_sip_returns, hm1, hm, List.range_succ,
    List.map_append]
  simp

/-- Round trip of the backsolver through the SIP simulator: the final
grown value is `T / (1 + monthly_rate r)`, one period's growth short of
the target. -/
theorem goal_round_trip_value (T r : ℝ) (y : ℕ) (hr : 0 < r) (hy : 1 ≤ y) :
    final_investment_value
        (calculate_sip_returns ((calculate_goal_based_sip T r y).getD 0) r y)
      = T / (1 + monthly_rate r) := by
  have hmr := monthly_rate_pos hr
  have h1 : (1 : ℝ) < 1 + monthly_rate r := by linarith
  have hn : y * 12 ≠ 0 := by omega
  have hpow : (1 : ℝ) < (1 + monthly_rate r) ^ (y * 12) := one_lt_pow₀ h1 hn
  have h1ne : (1 : ℝ) + monthly_rate r ≠ 0 := by linarith
  have hA : (1 + monthly_rate r) ^ (y * 12) - 1 ≠ 0 := by
    have : (0 : ℝ) < (1 + monthly_rate r) ^ (y * 12) - 1 := by linarith
    exact this.ne'
  have hsucc : y * 12 - 1 + 1 = y * 12 := by omega
  rw [goal_based_sip_eq T r y hr hy, Option.getD_some,
    final_investment_value_eq _ r y hy,
    sip_investment_value_closed _ _ hmr.ne', hsucc]
  field_simp
  ring

/-- At an annual rate of 12 percent the converted monthly rate exceeds
`1/100000`. -/
theorem monthly_rate_twelve_lb : (1 : ℝ) / 100000 < monthly_rate 12 := by
  have hb : (1 : ℝ) + 12 / 100 = 112 / 100 := by norm_num
  have hxpos : (0 : ℝ) < ((112 : ℝ) / 100) ^ ((1 : ℝ) / 12) :=
    Real.rpow_pos_of_pos (by norm_num) _
  have hx12 : (((112 : ℝ) / 100) ^ ((1 : ℝ) / 12)) ^ (12 : ℕ) = 112 / 100 := by
    rw [← Real.rpow_natCast (((112 : ℝ) / 100) ^ ((1 : ℝ) / 12)) 12,
      ← Real.rpow_mul (by norm_num : (0 : ℝ) ≤ 112 / 100)]
    norm_num
  by_contra hle
  push_neg at hle
  have hmr : monthly_rate 12 = ((112 : ℝ) / 100) ^ ((1 : ℝ) / 12) - 1 := by
    rw [monthly_rate, hb]
  have hxle : ((112 : ℝ) / 100) ^ ((1 : ℝ) / 12) ≤ 1 + 1 / 100000 := by
    rw [hmr] at hle
    linarith
  have h2 : (((112 : ℝ) / 100) ^ ((1 : ℝ) / 12)) ^ (12 : ℕ)
      ≤ ((1 : ℝ) + 1 / 100000) ^ (12 : ℕ) :=
    pow_le_pow_left₀ hxpos.le hxle 12
  rw [hx12] at h2
  have h3 : ((1 : ℝ) + 1 / 100000) ^ (12 : ℕ) < 112 / 100 := by norm_num
  linarith

/-- C1 as stated is false: at target 1200, annual rate 12 and one year,
the backsolver's contribution fed back through the SIP simulator ends
more than `1e-6 * 1200` away from the target. -/
theorem goal_round_trip_cex :
    ¬ |final_investment_value
          (calculate_sip_returns ((calculate_goal_based_sip 1200 12 1).getD 0) 12 1)
        - 1200| ≤ 1e-6 * 1200 := by
  rw [goal_round_trip_value 1200 12 1 (by norm_num) le_rfl]
  have hlb := monthly_rate_twelve_lb
  have hmr : (0 : ℝ) < monthly_rate 12 := monthly_rate_pos (by norm_num)
  have h1p : (0 : ℝ) < 1 + monthly_rate 12 := by linarith
  have hkey : (1200 : ℝ) / (1 + monthly_rate 12) < 1200 - 1e-6 * 1200 := by
    rw [div_lt_iff₀ h1p]
    nlinarith
  have hval : (1200 : ℝ) / (1 + monthly_rate 12) ≤ 1200 := by
    rw [div_le_iff₀ h1p]
    nlinarith
  rw [abs_of_nonpos (by linarith), not_le]
  linarith

/-- C1 amended: for every positive target, positive annual rate and
duration of at least one year, the backsolver succeeds and feeding its
contribution back through the SIP simulator yields a final value of
exactly `T / (1 + monthly_rate r)` — one month of growth short of the
target `T`, rather than within `1e-6` relative tolerance of `T`. -/
theorem goal_round_trip_amended (T r : ℝ) (y : ℕ) (hT : 0 < T) (hr : 0 < r) (hy : 1 ≤ y) :
    (calculate_goal_based_sip T r y).isSome = true ∧
    final_investment_value
        (calculate_sip_returns ((calculate_goal_based_sip T r y).getD 0) r y)
      = T / (1 + monthly_rate r) := by
  constructor
  · rw [goal_based_sip_eq T r y hr hy]
    rfl
  · exact goal_round_trip_value T r y hr hy

/-- Witness for the amended C1 at `T = 1200`, `r = 12`, `y = 1`. -/
theorem goal_round_trip_amended_witness :
    (0 : ℝ) < 1200 ∧ (0 : ℝ) < 12 ∧ 1 ≤ 1 ∧
    ((calculate_goal_based_sip 1200 12 1).isSome = true ∧
      final_investment_value
          (calculate_sip_returns ((calculate_goal_based_sip 1200 12 1).getD 0) 12 1)
        = 1200 / (1 + monthly_rate 12)) :=
  ⟨by norm_num, by norm_num, le_rfl,
    goal_round_trip_amended 1200 12 1 (by norm_num) (by norm_num) le_rfl⟩

end FinSmart
